import Mathlib

/-!
Verification development for the UNFCCC submissions scraper (`main.py`).

The file shallowly embeds the parsing, pagination, aggregation and export
functions of the source and proves the specification's claims about them.

Modelling conventions:
* A Selenium text lookup `elem.find_element(By.XPATH, xp).text` is
  represented by its outcome, a `FindResult`: the text that was found, a
  `NoSuchElementException`, or some other WebDriver failure.
* `get_attribute(name)` is represented by the attribute's value as an
  `Option String` (`none` when the attribute is missing, in which case
  Selenium returns Python `None`).
* Python exceptions are modelled with `Except PyError`.
* A Python `dict` (insertion ordered; assignment to an existing key
  overwrites the value in place) is modelled by an association list
  together with `dictSet`.
* Python `str.replace` is modelled by `pyReplace` (all uses in the source
  substitute one fixed non-empty pattern).
-/

namespace Unfccc

/-- Python exceptions that `main.py` can raise or propagate. -/
inductive PyError where
  | typeError
  | keyError
  | timeoutError
  | invalidSession
deriving DecidableEq, Repr

/-- Outcome of one Selenium text lookup `elem.find_element(By.XPATH, xp)`:
either the element's text, `NoSuchElementException`, or any other
WebDriver failure (for example an invalid page session). -/
inductive FindResult where
  | found (t : String)
  | noSuchElement
  | otherError (e : PyError)
deriving DecidableEq, Repr

/-- `SUBMISSIONS_URL` from `main.py` (line 15). -/
def SUBMISSIONS_URL : String :=
  "https://www4.unfccc.int/sites/submissionsstaging/Pages/Home.aspx"

/-- `RELEVANT_ENTITY_TYPES` from `main.py` (lines 16-24). -/
def RELEVANT_ENTITY_TYPES : List String :=
  ["IGO", "NAO", "NGO", "Elections Chairs and Coordinators", "Party", "UN",
   "Observer State"]

/-- Does `l` start with the pattern `p`? (Character-wise comparison.) -/
def listStartsWith : List Char → List Char → Bool
  | [], _ => true
  | _ :: _, [] => false
  | p :: ps, c :: cs => decide (p = c) && listStartsWith ps cs

/-- Replace every non-overlapping occurrence of `pat` in the list,
scanning left to right and continuing after each replacement — the
semantics of Python's `str.replace` for a non-empty pattern.  The `fuel`
argument only makes the recursion structural (each step consumes at
least one character, so `fuel = length of the input` never runs out). -/
def replaceAux (pat rep : List Char) : Nat → List Char → List Char
  | _, [] => []
  | 0, l => l
  | fuel + 1, c :: rest =>
    if pat.length > 0 && listStartsWith pat (c :: rest) then
      rep ++ replaceAux pat rep fuel (List.drop (pat.length - 1) rest)
    else
      c :: replaceAux pat rep fuel rest

/-- Python `s.replace(pat, rep)` for a non-empty pattern `pat`
(every use in `main.py` passes the fixed listing-page path). -/
def pyReplace (s pat rep : String) : String :=
  String.mk (replaceAux pat.data rep.data s.data.length s.data)

/-- `find_text_element` (`main.py` lines 81-93): return the element's text;
on `NoSuchElementException` fall through and return `None`; any other
exception propagates.  The `(elem, xpath)` pair is represented by the
outcome of the lookup it denotes. -/
def find_text_element : FindResult → Except PyError (Option String)
  | .found t => .ok (some t)
  | .noSuchElement => .ok none
  | .otherError e => .error e

/-- One sub-item dict appended at `main.py` lines 139-156.  `entity_type`
models the key of that name, absent (`none`) when the dict is built and
set later by `write_to_csv`'s in-place mutation (line 211). -/
structure SubItem where
  submission_name : Option String
  submission_entity : Option String
  submission_language : Option String
  submission_date : Option String
  submission_url : String
  entity_type : Option String
deriving DecidableEq, Repr

/-- One `div.row.tablefilerow` element: the outcomes of its four text
lookups plus its `fileref` attribute. -/
structure SubRow where
  filename : FindResult
  entity : FindResult
  language : FindResult
  submissiondate : FindResult
  fileref : Option String
deriving DecidableEq, Repr

/-- One `div.submissionssection` element: its `entitytype` attribute and
its `row tablefilerow` children. -/
structure SubmissionSection where
  entitytype : Option String
  rows : List SubRow
deriving DecidableEq, Repr

/-- One `div.soby_gridcell` element: the outcomes of the four scalar text
lookups plus its `submissionssection` children. -/
structure SubmissionGrid where
  issue : FindResult
  deadline : FindResult
  title : FindResult
  mandate : FindResult
  sections : List SubmissionSection
deriving DecidableEq, Repr

/-- One record dict (`sub_dict` in `main.py`).  `submissions` is an
`Option` so that presence of the `"submissions"` key is part of the
value: the parser always sets it (line 125), and `write_to_csv` guards on
it (line 202). -/
structure Record where
  issue : Option String
  deadline : Option String
  title : Option String
  mandate : Option String
  submissions : Option (List (String × List SubItem))
deriving DecidableEq, Repr

/-- Outcome of the guarded `driver.find_element(next)` / `nxt.click()`
pair inside the pagination loop's bare `try/except` (`main.py` lines
168-175): the control is absent (`NoSuchElementException`), or it is
present and clicking advances, or it is present but activating it
raises. -/
inductive NextNav where
  | absent
  | advances
  | activationFails
deriving DecidableEq, Repr

/-- One rendered result page: the driver's `current_url`, the grid cells
`find_elements` returns, the outcome of the next-page control lookup,
and whether the bounded wait for the next page's listing panel succeeds
(`nextLoads = false` models a `TimeoutException` from `WebDriverWait`). -/
structure Page where
  currentUrl : String
  grids : List SubmissionGrid
  nav : NextNav
  nextLoads : Bool
deriving DecidableEq, Repr

/-- Python dict assignment `m[k] = v`: overwrite in place when the key
exists (keeping its original position), otherwise append. -/
def dictSet {α : Type} (m : List (String × α)) (k : String) (v : α) :
    List (String × α) :=
  match m with
  | [] => [(k, v)]
  | (k', v') :: rest =>
    if k' = k then (k, v) :: rest else (k', v') :: dictSet rest k v

/-- `mapME f l` runs `f` on the elements in order, stopping at the first
exception — the Python `for` loop that builds a list. -/
def mapME {α β : Type} (f : α → Except PyError β) :
    List α → Except PyError (List β)
  | [] => .ok []
  | a :: l =>
    match f a with
    | .error e => .error e
    | .ok b =>
      match mapME f l with
      | .error e => .error e
      | .ok bs => .ok (b :: bs)

/-- Parsing of one sub-item row (`main.py` lines 134-156): `fileref` of
`None` makes `current_url.replace(..., None)` raise `TypeError`;
otherwise the resolved link is the current URL with the listing-page path
substituted by the row's `fileref`, and the four scalar sub-fields come
from `find_text_element`. -/
def parseRow (currentUrl : String) (row : SubRow) : Except PyError SubItem :=
  match row.fileref with
  | none => .error .typeError
  | some fr =>
    let sub_url :=
      pyReplace currentUrl "/sites/submissionsstaging/Pages/Home.aspx" fr
    match find_text_element row.filename with
    | .error e => .error e
    | .ok n =>
      match find_text_element row.entity with
      | .error e => .error e
      | .ok ent =>
        match find_text_element row.language with
        | .error e => .error e
        | .ok lang =>
          match find_text_element row.submissiondate with
          | .error e => .error e
          | .ok d =>
            .ok { submission_name := n, submission_entity := ent,
                  submission_language := lang, submission_date := d,
                  submission_url := sub_url, entity_type := none }

/-- One iteration of the section loop (`main.py` lines 126-156): read the
`entitytype` attribute; if it is in `RELEVANT_ENTITY_TYPES`, reset that
key to `[]` and append every parsed row (so the key ends bound to exactly
this section's parsed rows); otherwise leave the dict unchanged.  A
`None` attribute is never in the list of strings. -/
def parseSection (currentUrl : String) (m : List (String × List SubItem))
    (sec : SubmissionSection) : Except PyError (List (String × List SubItem)) :=
  match sec.entitytype with
  | none => .ok m
  | some et =>
    if et ∈ RELEVANT_ENTITY_TYPES then
      match mapME (parseRow currentUrl) sec.rows with
      | .error e => .error e
      | .ok items => .ok (dictSet m et items)
    else .ok m

/-- The section `for` loop folded over `sub_dict["submissions"]`. -/
def foldSections (currentUrl : String) (m : List (String × List SubItem)) :
    List SubmissionSection → Except PyError (List (String × List SubItem))
  | [] => .ok m
  | sec :: secs =>
    match parseSection currentUrl m sec with
    | .error e => .error e
    | .ok m' => foldSections currentUrl m' secs

/-- Parsing of one grid cell into a `sub_dict` (`main.py` lines 103-157):
four scalar fields via `find_text_element`, then `sub_dict["submissions"]
= {}` and the section loop. -/
def parseGrid (currentUrl : String) (g : SubmissionGrid) :
    Except PyError Record :=
  match find_text_element g.issue with
  | .error e => .error e
  | .ok iss =>
    match find_text_element g.deadline with
    | .error e => .error e
    | .ok dl =>
      match find_text_element g.title with
      | .error e => .error e
      | .ok ti =>
        match find_text_element g.mandate with
        | .error e => .error e
        | .ok ma =>
          match foldSections currentUrl [] g.sections with
          | .error e => .error e
          | .ok m =>
            .ok { issue := iss, deadline := dl, title := ti, mandate := ma,
                  submissions := some m }

/-- `_parse_submissions` (`main.py` lines 96-158): parse every grid cell
of the current page in order. -/
def _parse_submissions (p : Page) : Except PyError (List Record) :=
  mapME (parseGrid p.currentUrl) p.grids

/-- The `while True` pagination loop (`main.py` lines 166-182) over the
sequence of pages the site serves.  The current page is parsed (failures
propagate — the parse is outside the `try`); then the bare
`try: find; click; except: break` ends the loop when the control is
absent or activation raises; on a successful click the bounded wait for
the next listing panel either succeeds (loop continues on the next page)
or raises `TimeoutException` (`WebDriverWait` is outside the `try`). -/
def pagesLoop (p : Page) (rest : List Page) : Except PyError (List Record) :=
  match _parse_submissions p with
  | .error e => .error e
  | .ok here =>
    match p.nav with
    | .absent => .ok here
    | .activationFails => .ok here
    | .advances =>
      match rest with
      | [] => .error .timeoutError
      | q :: qs =>
        if p.nextLoads then
          match pagesLoop q qs with
          | .error e => .error e
          | .ok more => .ok (here ++ more)
        else .error .timeoutError

/-- The aggregate dict returned by `parse_submissions` (`main.py` lines
184-188).  `submissions_data` is an `Option` so that the presence of the
key is part of the value (`write_to_csv` pops it). -/
structure AggState where
  data_source : String
  collected_at : String
  submissions_data : Option (List Record)
deriving DecidableEq, Repr

/-- `parse_submissions` (`main.py` lines 161-188): run the pagination
loop, then attach the query metadata; `now` is the formatted
`datetime.now()` captured once when the aggregate dict is built. -/
def parse_submissions (now : String) (p : Page) (rest : List Page) :
    Except PyError AggState :=
  match pagesLoop p rest with
  | .error e => .error e
  | .ok subs =>
    .ok { data_source := SUBMISSIONS_URL, collected_at := now,
          submissions_data := some subs }

/-- `write_to_json` (`main.py` lines 191-194): `json.dump` serialises the
aggregate without touching it.  Result: (state of the aggregate after the
call, document written — a structural mirror of the aggregate). -/
def write_to_json (agg : AggState) : AggState × AggState := (agg, agg)

/-- `submission_metadata["entity_type"] = submission_entity_type`
(`main.py` line 211): in-place mutation of a sub-item dict. -/
def mutateSubItem (et : String) (it : SubItem) : SubItem :=
  { it with entity_type := some et }

/-- Net effect of `write_to_csv`'s loop on one record's (shared, heap
allocated) sub-item dicts: every sub-item of every category gets its
`entity_type` key set; records without a `"submissions"` key are
untouched.  The record dict itself is not mutated (`issue` is rebound to
a fresh merged dict before its `pop`). -/
def mutateRecord (r : Record) : Record :=
  match r.submissions with
  | none => r
  | some m =>
    { r with
      submissions := some (m.map (fun kv => (kv.1, kv.2.map (mutateSubItem kv.1)))) }

/-- One flat CSV row `{**submission_metadata, **issue}` (`main.py` line
212): the mutated sub-item's fields, the record's scalar fields, and the
two run-metadata fields merged from the popped aggregate. -/
structure FlatRow where
  submission_name : Option String
  submission_entity : Option String
  submission_language : Option String
  submission_date : Option String
  submission_url : String
  entity_type : String
  issue : Option String
  deadline : Option String
  title : Option String
  mandate : Option String
  data_source : String
  collected_at : String
deriving DecidableEq, Repr

/-- Build the row for one (category, sub-item) pair. -/
def rowOf (ds ca : String) (r : Record) (et : String) (it : SubItem) :
    FlatRow :=
  { submission_name := it.submission_name,
    submission_entity := it.submission_entity,
    submission_language := it.submission_language,
    submission_date := it.submission_date,
    submission_url := it.submission_url,
    entity_type := et,
    issue := r.issue, deadline := r.deadline, title := r.title,
    mandate := r.mandate, data_source := ds, collected_at := ca }

/-- Concatenation of a list of lists (the rows the nested `for` loops
append to `container`, page by page or record by record). -/
def concatAll {α : Type} : List (List α) → List α
  | [] => []
  | l :: ls => l ++ concatAll ls

/-- Rows contributed by one record (`main.py` lines 201-212): skipped
entirely when the `"submissions"` key is missing; otherwise one row per
sub-item, in category insertion order then sub-item order. -/
def recordRows (ds ca : String) (r : Record) : List FlatRow :=
  match r.submissions with
  | none => []
  | some m =>
    concatAll (m.map (fun kv => kv.2.map (fun it => rowOf ds ca r kv.1 it)))

/-- All rows of `container` in `write_to_csv`, record by record. -/
def flat_rows (ds ca : String) (recs : List Record) : List FlatRow :=
  concatAll (recs.map (recordRows ds ca))

/-- `write_to_csv` (`main.py` lines 197-214):
`submissions_data.pop("submissions_data")` raises `KeyError` when the key
is absent and otherwise removes it from the aggregate dict; the loop then
builds the rows while setting `entity_type` on every (shared) sub-item
dict.  Result: (state of the aggregate dict after the call, state of the
popped record list's objects after the call, rows written). -/
def write_to_csv (agg : AggState) :
    Except PyError (AggState × List Record × List FlatRow) :=
  match agg.submissions_data with
  | none => .error .keyError
  | some recs =>
    .ok ({ agg with submissions_data := none },
         recs.map mutateRecord,
         flat_rows agg.data_source agg.collected_at recs)

/-- Number of sub-items of one record in the nested export: the summed
lengths of its category sequences (0 when the key is absent). -/
def recordSubCount (r : Record) : Nat :=
  match r.submissions with
  | none => 0
  | some m => (m.map (fun kv => kv.2.length)).sum

/-- Total sub-item count of the nested export across all records and all
category keys. -/
def nestedSubItemCount (doc : AggState) : Nat :=
  ((doc.submissions_data.getD []).map recordSubCount).sum

/-- A run of pages the pagination loop can traverse to completion: every
page but the last has a working next-page control and a successful wait,
and the last page has no next-page control. -/
def goodRun : Page → List Page → Bool
  | p, [] => decide (p.nav = NextNav.absent)
  | p, q :: qs =>
    decide (p.nav = NextNav.advances) && p.nextLoads && goodRun q qs

/-! Concrete sample pages used to instantiate the theorems below.  `wRow`
has all four scalar sub-fields absent, so the sample also exercises the
claim that the resolved link is computed regardless. -/

/-- A sample sub-item row: every text lookup misses, `fileref` set. -/
def wRow : SubRow :=
  { filename := .noSuchElement, entity := .noSuchElement,
    language := .noSuchElement, submissiondate := .noSuchElement,
    fileref := some "/d/f.pdf" }

/-- A sample section of category `"Party"` with one row. -/
def wSec : SubmissionSection := { entitytype := some "Party", rows := [wRow] }

/-- A sample grid cell with one `"Party"` section. -/
def wGrid : SubmissionGrid :=
  { issue := .found "I", deadline := .noSuchElement, title := .noSuchElement,
    mandate := .noSuchElement, sections := [wSec] }

/-- A sample last page (no next-page control). -/
def wPage : Page :=
  { currentUrl := "https://h/sites/submissionsstaging/Pages/Home.aspx",
    grids := [wGrid], nav := .absent, nextLoads := false }

/-- A sample first page whose next-page control works. -/
def wPageA : Page :=
  { currentUrl := "https://h/sites/submissionsstaging/Pages/Home.aspx",
    grids := [wGrid], nav := .advances, nextLoads := true }

/-- The sub-item `wRow` parses to. -/
def wItem : SubItem :=
  { submission_name := none, submission_entity := none,
    submission_language := none, submission_date := none,
    submission_url := "https://h/d/f.pdf", entity_type := none }

/-- The record `wGrid` parses to. -/
def wRec : Record :=
  { issue := some "I", deadline := none, title := none, mandate := none,
    submissions := some [("Party", [wItem])] }

/-- A sample aggregate holding `wRec`. -/
def wAgg : AggState :=
  { data_source := "s", collected_at := "c", submissions_data := some [wRec] }

/-- `wAgg` after `write_to_csv` popped its `submissions_data` key. -/
def wAggPopped : AggState := { wAgg with submissions_data := none }

/-- `wItem` after `write_to_csv` set its `entity_type` key. -/
def wItemMut : SubItem := { wItem with entity_type := some "Party" }

/-- `wRec` after `write_to_csv` mutated its sub-items. -/
def wRecMut : Record := { wRec with submissions := some [("Party", [wItemMut])] }

/-- The one flat row `wAgg` exports. -/
def wFlatRow : FlatRow :=
  { submission_name := none, submission_entity := none,
    submission_language := none, submission_date := none,
    submission_url := "https://h/d/f.pdf", entity_type := "Party",
    issue := some "I", deadline := none, title := none, mandate := none,
    data_source := "s", collected_at := "c" }

/-- A page whose next-page control is present but raises when clicked. -/
def cexPage4 : Page :=
  { currentUrl := "u", grids := [], nav := .activationFails,
    nextLoads := false }

/-- A `"Party"` section with zero qualifying rows. -/
def cexSec9 : SubmissionSection := { entitytype := some "Party", rows := [] }

/-- A grid cell with two `"Party"` sections: first empty, second with one
row — the later section overwrites the earlier one's dict entry. -/
def cexGrid9 : SubmissionGrid :=
  { issue := .noSuchElement, deadline := .noSuchElement,
    title := .noSuchElement, mandate := .noSuchElement,
    sections := [cexSec9, wSec] }

/-- A page holding `cexGrid9`. -/
def cexPage9 : Page :=
  { currentUrl := "https://h/sites/submissionsstaging/Pages/Home.aspx",
    grids := [cexGrid9], nav := .absent, nextLoads := false }

/-- The record `cexGrid9` parses to. -/
def cexRec9 : Record :=
  { issue := none, deadline := none, title := none, mandate := none,
    submissions := some [("Party", [wItem])] }

/-- An `"NGO"` section with zero qualifying rows. -/
def w9Sec : SubmissionSection := { entitytype := some "NGO", rows := [] }

/-- A grid cell whose only section is the empty `"NGO"` section. -/
def w9Grid : SubmissionGrid :=
  { issue := .noSuchElement, deadline := .noSuchElement,
    title := .noSuchElement, mandate := .noSuchElement,
    sections := [w9Sec] }

/-- A page holding `w9Grid`. -/
def w9Page : Page :=
  { currentUrl := "https://h/sites/submissionsstaging/Pages/Home.aspx",
    grids := [w9Grid], nav := .absent, nextLoads := false }

/-- The record `w9Grid` parses to: the `"NGO"` key is present, empty. -/
def w9Rec : Record :=
  { issue := none, deadline := none, title := none, mandate := none,
    submissions := some [("NGO", [])] }

/-! ### Helper lemmas -/

/-- One unfolding step of `mapME` on a cons cell. -/
theorem mapME_cons {α β : Type} (f : α → Except PyError β) (a : α)
    (l : List α) :
    mapME f (a :: l) =
      match f a with
      | .error e => .error e
      | .ok b =>
        match mapME f l with
        | .error e => .error e
        | .ok bs => .ok (b :: bs) := rfl

/-- Every element of a successful `mapME` result comes from applying `f`
to some element of the input list. -/
theorem mapME_ok_mem {α β : Type} (f : α → Except PyError β) :
    ∀ (l : List α) (ys : List β), mapME f l = .ok ys →
      ∀ y ∈ ys, ∃ a ∈ l, f a = .ok y := by
  intro l
  induction l with
  | nil =>
    intro ys h y hy
    simp only [mapME] at h
    cases h
    simp at hy
  | cons a l ih =>
    intro ys h y hy
    simp only [mapME] at h
    cases hfa : f a with
    | error e => rw [hfa] at h; cases h
    | ok b =>
      rw [hfa] at h
      cases hml : mapME f l with
      | error e => rw [hml] at h; cases h
      | ok bs =>
        rw [hml] at h
        cases h
        rcases List.mem_cons.mp hy with hy | hy
        · exact ⟨a, List.mem_cons_self a l, hy ▸ hfa⟩
        · obtain ⟨a', ha', hfa'⟩ := ih bs hml y hy
          exact ⟨a', List.mem_cons_of_mem a ha', hfa'⟩

/-- A successful `mapME` maps every input element to some output. -/
theorem mapME_ok_forward {α β : Type} (f : α → Except PyError β) :
    ∀ (l : List α) (ys : List β), mapME f l = .ok ys →
      ∀ a ∈ l, ∃ y ∈ ys, f a = .ok y := by
  intro l
  induction l with
  | nil => intro ys _ a ha; simp at ha
  | cons a l ih =>
    intro ys h x hx
    simp only [mapME] at h
    cases hfa : f a with
    | error e => rw [hfa] at h; cases h
    | ok b =>
      rw [hfa] at h
      cases hml : mapME f l with
      | error e => rw [hml] at h; cases h
      | ok bs =>
        rw [hml] at h
        cases h
        rcases List.mem_cons.mp hx with hx | hx
        · exact ⟨b, List.mem_cons_self b bs, hx ▸ hfa⟩
        · obtain ⟨y, hy, hfy⟩ := ih bs hml x hx
          exact ⟨y, List.mem_cons_of_mem b hy, hfy⟩

/-- Every entry of `dictSet m k v` is either the written pair or an entry
of `m`. -/
theorem dictSet_mem {α : Type} :
    ∀ (m : List (String × α)) (k : String) (v : α) (kv : String × α),
      kv ∈ dictSet m k v → kv = (k, v) ∨ kv ∈ m := by
  intro m k v
  induction m with
  | nil => intro kv h; simp [dictSet] at h; exact Or.inl h
  | cons p rest ih =>
    intro kv h
    simp only [dictSet] at h
    by_cases hk : p.1 = k
    · rw [if_pos hk] at h
      rcases List.mem_cons.mp h with h | h
      · exact Or.inl h
      · exact Or.inr (List.mem_cons_of_mem p h)
    · rw [if_neg hk] at h
      rcases List.mem_cons.mp h with h | h
      · exact Or.inr (h ▸ List.mem_cons_self p rest)
      · rcases ih kv h with h | h
        · exact Or.inl h
        · exact Or.inr (List.mem_cons_of_mem p h)

/-- The written pair is an entry of `dictSet m k v`. -/
theorem dictSet_self_mem {α : Type} :
    ∀ (m : List (String × α)) (k : String) (v : α), (k, v) ∈ dictSet m k v := by
  intro m k v
  induction m with
  | nil => simp [dictSet]
  | cons p rest ih =>
    simp only [dictSet]
    by_cases hk : p.1 = k
    · rw [if_pos hk]; exact List.mem_cons_self _ _
    · rw [if_neg hk]; exact List.mem_cons_of_mem p ih

/-- Writing a different key preserves an entry of `m`. -/
theorem dictSet_preserve {α : Type} :
    ∀ (m : List (String × α)) (k : String) (v : α) (kv : String × α),
      kv ∈ m → kv.1 ≠ k → kv ∈ dictSet m k v := by
  intro m k v
  induction m with
  | nil => intro kv h; simp at h
  | cons p rest ih =>
    intro kv h hne
    simp only [dictSet]
    by_cases hk : p.1 = k
    · rw [if_pos hk]
      rcases List.mem_cons.mp h with h | h
      · exact absurd (h ▸ hk) hne
      · exact List.mem_cons_of_mem _ h
    · rw [if_neg hk]
      rcases List.mem_cons.mp h with h | h
      · exact h ▸ List.mem_cons_self p _
      · exact List.mem_cons_of_mem p (ih kv h hne)

/-- Characterisation of a successful `parseSection` step: an entry of the
result is an old entry, or carries this section's relevant category and
its parsed rows. -/
theorem parseSection_ok_mem (url : String) (m : List (String × List SubItem))
    (sec : SubmissionSection) (m' : List (String × List SubItem))
    (h : parseSection url m sec = .ok m') (kv : String × List SubItem)
    (hkv : kv ∈ m') :
    kv ∈ m ∨ ∃ et, sec.entitytype = some et ∧ et ∈ RELEVANT_ENTITY_TYPES ∧
      kv.1 = et ∧ mapME (parseRow url) sec.rows = .ok kv.2 := by
  simp only [parseSection] at h
  split at h
  · cases h; exact Or.inl hkv
  · rename_i et hety
    split at h
    · rename_i hrel
      cases hrows : mapME (parseRow url) sec.rows with
      | error e => rw [hrows] at h; exact Except.noConfusion h
      | ok items =>
        rw [hrows] at h
        cases h
        rcases dictSet_mem m et items kv hkv with h | h
        · subst h
          exact Or.inr ⟨et, hety, hrel, rfl, rfl⟩
        · exact Or.inl h
    · cases h; exact Or.inl hkv

/-- A `parseSection` step whose section has a different category (or a
missing one) preserves an entry of `m`. -/
theorem parseSection_preserve (url : String) (m : List (String × List SubItem))
    (sec : SubmissionSection) (m' : List (String × List SubItem))
    (h : parseSection url m sec = .ok m') (kv : String × List SubItem)
    (hkv : kv ∈ m) (hne : sec.entitytype ≠ some kv.1) : kv ∈ m' := by
  simp only [parseSection] at h
  split at h
  · cases h; exact hkv
  · rename_i et hety
    split at h
    · rename_i hrel
      cases hrows : mapME (parseRow url) sec.rows with
      | error e => rw [hrows] at h; exact Except.noConfusion h
      | ok items =>
        rw [hrows] at h
        cases h
        refine dictSet_preserve m et items kv hkv ?_
        intro hk
        exact hne (by rw [hety, hk])
    · cases h; exact hkv

/-- Characterisation of a successful section fold: an entry of the result
is an entry of the initial dict, or comes from some section of the list. -/
theorem foldSections_ok_mem (url : String) :
    ∀ (secs : List SubmissionSection) (m m' : List (String × List SubItem)),
      foldSections url m secs = .ok m' → ∀ kv ∈ m',
        kv ∈ m ∨ ∃ sec ∈ secs, ∃ et, sec.entitytype = some et ∧
          et ∈ RELEVANT_ENTITY_TYPES ∧ kv.1 = et ∧
          mapME (parseRow url) sec.rows = .ok kv.2 := by
  intro secs
  induction secs with
  | nil => intro m m' h kv hkv; cases h; exact Or.inl hkv
  | cons sec secs ih =>
    intro m m' h kv hkv
    simp only [foldSections] at h
    cases hsec : parseSection url m sec with
    | error e => rw [hsec] at h; cases h
    | ok m1 =>
      rw [hsec] at h
      rcases ih m1 m' h kv hkv with h1 | ⟨sec', hsec', hrest⟩
      · rcases parseSection_ok_mem url m sec m1 hsec kv h1 with h2 | ⟨et, h2⟩
        · exact Or.inl h2
        · exact Or.inr ⟨sec, List.mem_cons_self sec secs, et, h2⟩
      · exact Or.inr ⟨sec', List.mem_cons_of_mem sec hsec', hrest⟩

/-- A fold over sections none of which carries the entry's category
preserves that entry. -/
theorem foldSections_preserve (url : String) :
    ∀ (secs : List SubmissionSection) (m m' : List (String × List SubItem)),
      foldSections url m secs = .ok m' → ∀ kv ∈ m,
        (∀ sec ∈ secs, sec.entitytype ≠ some kv.1) → kv ∈ m' := by
  intro secs
  induction secs with
  | nil => intro m m' h kv hkv _; cases h; exact hkv
  | cons sec secs ih =>
    intro m m' h kv hkv hall
    simp only [foldSections] at h
    cases hsec : parseSection url m sec with
    | error e => rw [hsec] at h; cases h
    | ok m1 =>
      rw [hsec] at h
      have hkv1 : kv ∈ m1 :=
        parseSection_preserve url m sec m1 hsec kv hkv
          (hall sec (List.mem_cons_self sec secs))
      exact ih m1 m' h kv hkv1 (fun s hs => hall s (List.mem_cons_of_mem sec hs))

/-- Splitting a section fold at an append. -/
theorem foldSections_append (url : String) :
    ∀ (l1 l2 : List SubmissionSection) (m : List (String × List SubItem)),
      foldSections url m (l1 ++ l2) =
        match foldSections url m l1 with
        | .error e => .error e
        | .ok m' => foldSections url m' l2 := by
  intro l1
  induction l1 with
  | nil => intro l2 m; rfl
  | cons sec l1 ih =>
    intro l2 m
    simp only [List.cons_append, foldSections]
    cases hsec : parseSection url m sec with
    | error e => rfl
    | ok m1 => exact ih l2 m1

/-- A successfully parsed grid cell always carries the `submissions` key,
bound to the outcome of the section fold. -/
theorem parseGrid_ok_submissions (url : String) (g : SubmissionGrid)
    (r : Record) (h : parseGrid url g = .ok r) :
    ∃ m, r.submissions = some m ∧ foldSections url [] g.sections = .ok m := by
  simp only [parseGrid] at h
  cases h1 : find_text_element g.issue with
  | error e => rw [h1] at h; cases h
  | ok iss =>
    rw [h1] at h
    cases h2 : find_text_element g.deadline with
    | error e => rw [h2] at h; cases h
    | ok dl =>
      rw [h2] at h
      cases h3 : find_text_element g.title with
      | error e => rw [h3] at h; cases h
      | ok ti =>
        rw [h3] at h
        cases h4 : find_text_element g.mandate with
        | error e => rw [h4] at h; cases h
        | ok ma =>
          rw [h4] at h
          cases h5 : foldSections url [] g.sections with
          | error e => rw [h5] at h; cases h
          | ok m =>
            rw [h5] at h
            cases h
            exact ⟨m, rfl, rfl⟩

/-- A successfully parsed sub-item row has its resolved link computed by
substituting the listing-page path in the current URL with the row's
`fileref` value. -/
theorem parseRow_ok_url (url : String) (row : SubRow) (it : SubItem)
    (h : parseRow url row = .ok it) :
    ∃ fr, row.fileref = some fr ∧
      it.submission_url =
        pyReplace url "/sites/submissionsstaging/Pages/Home.aspx" fr := by
  simp only [parseRow] at h
  cases hfr : row.fileref with
  | none => rw [hfr] at h; cases h
  | some fr =>
    rw [hfr] at h
    cases h1 : find_text_element row.filename with
    | error e => rw [h1] at h; cases h
    | ok n =>
      rw [h1] at h
      cases h2 : find_text_element row.entity with
      | error e => rw [h2] at h; cases h
      | ok ent =>
        rw [h2] at h
        cases h3 : find_text_element row.language with
        | error e => rw [h3] at h; cases h
        | ok lang =>
          rw [h3] at h
          cases h4 : find_text_element row.submissiondate with
          | error e => rw [h4] at h; cases h
          | ok d =>
            rw [h4] at h
            cases h
            exact ⟨fr, rfl, rfl⟩

/-- Length of a concatenation is the sum of the lengths. -/
theorem concatAll_length {α : Type} :
    ∀ ls : List (List α), (concatAll ls).length = (ls.map List.length).sum := by
  intro ls
  induction ls with
  | nil => rfl
  | cons l ls ih => simp [concatAll, ih]

/-- A concatenation is empty exactly when every part is. -/
theorem concatAll_eq_nil {α : Type} :
    ∀ ls : List (List α), concatAll ls = [] ↔ ∀ l ∈ ls, l = [] := by
  intro ls
  induction ls with
  | nil => simp [concatAll]
  | cons l ls ih => simp [concatAll, ih]

/-- One record contributes as many flat rows as it has sub-items. -/
theorem recordRows_length (ds ca : String) (r : Record) :
    (recordRows ds ca r).length = recordSubCount r := by
  cases hs : r.submissions with
  | none => simp [recordRows, recordSubCount, hs]
  | some m =>
    simp only [recordRows, recordSubCount, hs, concatAll_length, List.map_map]
    clear hs
    induction m with
    | nil => rfl
    | cons kv m ih => simp [Function.comp_apply, ih]

/-- The flat export has as many rows as the records have sub-items. -/
theorem flat_rows_length (ds ca : String) :
    ∀ recs : List Record,
      (flat_rows ds ca recs).length = (recs.map recordSubCount).sum := by
  intro recs
  simp only [flat_rows, concatAll_length, List.map_map]
  induction recs with
  | nil => rfl
  | cons r recs ih => simp [Function.comp_apply, recordRows_length, ih]

/-- Over a well-formed run the pagination loop returns the concatenation
of all per-page record lists, in page order. -/
theorem pagesLoop_good :
    ∀ (rest : List Page) (p : Page) (Ps : List (List Record)),
      goodRun p rest = true →
      mapME _parse_submissions (p :: rest) = .ok Ps →
      pagesLoop p rest = .ok (concatAll Ps) := by
  intro rest
  induction rest with
  | nil =>
    intro p Ps hrun hparse
    simp only [goodRun, decide_eq_true_eq] at hrun
    rw [mapME_cons] at hparse
    cases hp : _parse_submissions p with
    | error e =>
      simp only [hp] at hparse
      exact Except.noConfusion hparse
    | ok here =>
      simp only [hp, mapME] at hparse
      cases hparse
      simp [pagesLoop, hp, hrun, concatAll]
  | cons q qs ih =>
    intro p Ps hrun hparse
    simp only [goodRun, Bool.and_eq_true, decide_eq_true_eq] at hrun
    obtain ⟨⟨hnav, hload⟩, hrun'⟩ := hrun
    rw [mapME_cons] at hparse
    cases hp : _parse_submissions p with
    | error e =>
      simp only [hp] at hparse
      exact Except.noConfusion hparse
    | ok here =>
      simp only [hp] at hparse
      cases hrest : mapME _parse_submissions (q :: qs) with
      | error e =>
        simp only [hrest] at hparse
        exact Except.noConfusion hparse
      | ok Ps' =>
        simp only [hrest] at hparse
        cases hparse
        have hloop := ih q Ps' hrun' hrest
        simp [pagesLoop, hp, hnav, hload, hloop, concatAll]

/-- One unfolding step of `foldSections` on a cons cell. -/
theorem foldSections_cons (url : String) (m : List (String × List SubItem))
    (sec : SubmissionSection) (secs : List SubmissionSection) :
    foldSections url m (sec :: secs) =
      match parseSection url m sec with
      | .error e => .error e
      | .ok m' => foldSections url m' secs := rfl

/-! ### Claims -/

/-- Claim C1: every `SubItem` the record parser produces has a
`submission_url` that is a string (the field is not optional in the
model, mirroring that the source always assigns `sub_url`), computed by
substituting the known listing-page path in the current page's base URL
with the originating sub-item row's `fileref` attribute value — with no
assumption on the other scalar sub-fields, which may all be absent. -/
theorem c1_submission_url_from_fileref (page : Page) (recs : List Record)
    (h : _parse_submissions page = .ok recs) (r : Record) (hr : r ∈ recs)
    (m : List (String × List SubItem)) (hm : r.submissions = some m)
    (kv : String × List SubItem) (hkv : kv ∈ m) (it : SubItem)
    (hit : it ∈ kv.2) :
    ∃ (row : SubRow) (fr : String), row.fileref = some fr ∧
      parseRow page.currentUrl row = .ok it ∧
      it.submission_url =
        pyReplace page.currentUrl
          "/sites/submissionsstaging/Pages/Home.aspx" fr := by
  obtain ⟨g, hg, hpg⟩ :=
    mapME_ok_mem (parseGrid page.currentUrl) page.grids recs h r hr
  obtain ⟨m', hm', hfold⟩ := parseGrid_ok_submissions page.currentUrl g r hpg
  rw [hm] at hm'
  injection hm' with hm'
  subst hm'
  rcases foldSections_ok_mem page.currentUrl g.sections [] m hfold kv hkv with
    h0 | ⟨sec, hsec, et, hety, hrel, hk1, hrows⟩
  · simp at h0
  · obtain ⟨row, hrow, hprow⟩ :=
      mapME_ok_mem (parseRow page.currentUrl) sec.rows kv.2 hrows it hit
    obtain ⟨fr, hfr, hurl⟩ := parseRow_ok_url page.currentUrl row it hprow
    exact ⟨row, fr, hfr, hprow, hurl⟩

/-- Witness for C1, at a page whose one sub-item has all four scalar
sub-fields absent. -/
theorem c1_submission_url_from_fileref_witness :
    ∃ (row : SubRow) (fr : String), row.fileref = some fr ∧
      parseRow wPage.currentUrl row = .ok wItem ∧
      wItem.submission_url =
        pyReplace wPage.currentUrl
          "/sites/submissionsstaging/Pages/Home.aspx" fr :=
  c1_submission_url_from_fileref wPage [wRec] rfl wRec (by decide)
    [("Party", [wItem])] rfl ("Party", [wItem]) (by decide) wItem (by decide)

/-- Claim C2: the `submissions` mapping of every parsed record contains
no key outside `RELEVANT_ENTITY_TYPES`; a section with a category
outside that set (or with no category attribute) contributes nothing. -/
theorem c2_submissions_keys_relevant (page : Page) (recs : List Record)
    (h : _parse_submissions page = .ok recs) (r : Record) (hr : r ∈ recs)
    (m : List (String × List SubItem)) (hm : r.submissions = some m)
    (kv : String × List SubItem) (hkv : kv ∈ m) :
    kv.1 ∈ RELEVANT_ENTITY_TYPES := by
  obtain ⟨g, hg, hpg⟩ :=
    mapME_ok_mem (parseGrid page.currentUrl) page.grids recs h r hr
  obtain ⟨m', hm', hfold⟩ := parseGrid_ok_submissions page.currentUrl g r hpg
  rw [hm] at hm'
  injection hm' with hm'
  subst hm'
  rcases foldSections_ok_mem page.currentUrl g.sections [] m hfold kv hkv with
    h0 | ⟨sec, hsec, et, hety, hrel, hk1, hrows⟩
  · simp at h0
  · rw [hk1]; exact hrel

/-- Witness for C2. -/
theorem c2_submissions_keys_relevant_witness :
    ("Party", [wItem]).1 ∈ RELEVANT_ENTITY_TYPES :=
  c2_submissions_keys_relevant wPage [wRec] rfl wRec (by decide)
    [("Party", [wItem])] rfl ("Party", [wItem]) (by decide)

/-- Claim C3: over a run whose pages parse to record lists `P1, ..., Pn`
and whose last page alone lacks the next-page control, the aggregate
result carries the source identifier, the timestamp captured once at
assembly time, and exactly the concatenation `P1 ++ P2 ++ ...` in page
order. -/
theorem c3_aggregate_concat (now : String) (p : Page) (rest : List Page)
    (Ps : List (List Record))
    (hparse : mapME _parse_submissions (p :: rest) = .ok Ps)
    (hrun : goodRun p rest = true) :
    parse_submissions now p rest =
      .ok { data_source := SUBMISSIONS_URL, collected_at := now,
            submissions_data := some (concatAll Ps) } := by
  have hloop := pagesLoop_good rest p Ps hrun hparse
  simp [parse_submissions, hloop]

/-- Witness for C3, over a two-page run. -/
theorem c3_aggregate_concat_witness :
    parse_submissions "tstamp" wPageA [wPage] =
      Except.ok { data_source := SUBMISSIONS_URL, collected_at := "tstamp",
                  submissions_data := some (concatAll [[wRec], [wRec]]) } :=
  c3_aggregate_concat "tstamp" wPageA [wPage] [[wRec], [wRec]] rfl (by decide)

/-- Counterexample to claim C4 as stated: the pagination loop's bare
`except:` also catches a failure of `nxt.click()`, so the loop can
transition to DONE (terminate normally) although the next-page
affordance is present on the page. -/
theorem c4_cex_activation_failure_ends_loop :
    cexPage4.nav ≠ NextNav.absent ∧ pagesLoop cexPage4 [] = Except.ok [] :=
  ⟨by decide, rfl⟩

/-- Claim C4 (amended): the loop transitions to DONE exactly when the
attempt to locate and activate the next-page affordance raises — when
the affordance is absent, or when activating it fails (the bare
`except:` catches both); when location and activation succeed, parsing
continues on the next page; and a bounded-wait timeout for the next
page's content propagates as a fatal error rather than ending the loop
normally. -/
theorem c4_loop_termination_cases (p : Page) (rest : List Page) :
    (p.nav = NextNav.absent ∨ p.nav = NextNav.activationFails →
      pagesLoop p rest = _parse_submissions p) ∧
    (∀ q qs here, p.nav = NextNav.advances → rest = q :: qs →
      p.nextLoads = true → _parse_submissions p = .ok here →
      pagesLoop p rest =
        Except.map (fun more => here ++ more) (pagesLoop q qs)) ∧
    (∀ here, p.nav = NextNav.advances → (rest = [] ∨ p.nextLoads = false) →
      _parse_submissions p = .ok here →
      pagesLoop p rest = .error PyError.timeoutError) := by
  refine ⟨?_, ?_, ?_⟩
  · intro h
    cases hp : _parse_submissions p with
    | error e => rcases h with h | h <;> simp [pagesLoop, h, hp]
    | ok here => rcases h with h | h <;> simp [pagesLoop, h, hp]
  · intro q qs here hnav hrest hload hp
    subst hrest
    cases hq : pagesLoop q qs with
    | error e => simp [pagesLoop, hnav, hload, hp, hq, Except.map]
    | ok more => simp [pagesLoop, hnav, hload, hp, hq, Except.map]
  · intro here hnav hcase hp
    rcases hcase with hrest | hload
    · subst hrest
      simp [pagesLoop, hnav, hp]
    · cases rest with
      | nil => simp [pagesLoop, hnav, hp]
      | cons q qs => simp [pagesLoop, hnav, hp, hload]

/-- Witness for the amended C4. -/
theorem c4_loop_termination_cases_witness :
    pagesLoop wPage [] = _parse_submissions wPage :=
  (c4_loop_termination_cases wPage []).1 (Or.inl rfl)

/-- Counterexample to claim C5 as stated: `write_to_csv` does not
consume the aggregate read-only — it pops the `submissions_data` key out
of the aggregate dict and sets `entity_type` on every sub-item dict. -/
theorem c5_cex_write_to_csv_mutates_aggregate :
    write_to_csv wAgg = Except.ok (wAggPopped, [wRecMut], [wFlatRow]) ∧
    wAggPopped ≠ wAgg ∧ wRecMut ≠ wRec :=
  ⟨rfl, by decide, by decide⟩

/-- Claim C5 (amended): `write_to_json` consumes the aggregate
read-only, but `write_to_csv` removes the `submissions_data` key from
the aggregate and sets an `entity_type` field on every sub-item of every
record carrying the `submissions` key; consequently running the flat
exporter first changes what the nested exporter would write, so the two
exporters cannot be reordered. -/
theorem c5_exporter_effects (agg : AggState) (recs : List Record)
    (h : agg.submissions_data = some recs) :
    (write_to_json agg).1 = agg ∧
    write_to_csv agg =
      .ok ({ agg with submissions_data := none }, recs.map mutateRecord,
           flat_rows agg.data_source agg.collected_at recs) ∧
    (write_to_json { agg with submissions_data := none }).2 ≠
      (write_to_json agg).2 := by
  refine ⟨rfl, ?_, ?_⟩
  · simp [write_to_csv, h]
  · intro heq
    have h2 := congrArg AggState.submissions_data heq
    simp [write_to_json, h] at h2

/-- Witness for the amended C5. -/
theorem c5_exporter_effects_witness : (write_to_json wAgg).1 = wAgg :=
  (c5_exporter_effects wAgg [wRec] rfl).1

/-- Claim C6: the flat-export projection is deterministic — two
applications of `write_to_csv` to the same aggregate value yield the
same row sequence, element for element and in the same order. -/
theorem c6_flat_export_deterministic (agg : AggState) (p1 p2 : AggState)
    (m1 m2 : List Record) (r1 r2 : List FlatRow)
    (h1 : write_to_csv agg = .ok (p1, m1, r1))
    (h2 : write_to_csv agg = .ok (p2, m2, r2)) : r1 = r2 := by
  rw [h1] at h2
  cases h2
  rfl

/-- Witness for C6. -/
theorem c6_flat_export_deterministic_witness : [wFlatRow] = [wFlatRow] :=
  c6_flat_export_deterministic wAgg wAggPopped wAggPopped [wRecMut] [wRecMut]
    [wFlatRow] [wFlatRow] rfl rfl

/-- Claim C7: the number of data rows of the flat export equals the
total number of sub-items of the nested export, summed over all records
and all category keys. -/
theorem c7_nested_count_eq_flat_count (agg post : AggState)
    (mrecs : List Record) (rows : List FlatRow)
    (h : write_to_csv agg = .ok (post, mrecs, rows)) :
    rows.length = nestedSubItemCount (write_to_json agg).2 := by
  cases hs : agg.submissions_data with
  | none => simp [write_to_csv, hs] at h
  | some recs =>
    simp only [write_to_csv, hs] at h
    cases h
    simp [write_to_json, nestedSubItemCount, hs, flat_rows_length]

/-- Witness for C7. -/
theorem c7_nested_count_eq_flat_count_witness :
    ([wFlatRow] : List FlatRow).length =
      nestedSubItemCount (write_to_json wAgg).2 :=
  c7_nested_count_eq_flat_count wAgg wAggPopped [wRecMut] [wFlatRow] rfl

/-- Claim C8: the field extractor returns the sub-region's text when the
lookup finds it, resolves `NoSuchElementException` — and nothing else —
to the explicit absent value `none` without raising, and propagates any
other failure (such as an invalid page session) as an error. -/
theorem c8_find_text_element_classifies (fr : FindResult) :
    (find_text_element fr = .ok none ↔ fr = FindResult.noSuchElement) ∧
    (∀ t, find_text_element fr = .ok (some t) ↔ fr = FindResult.found t) ∧
    (∀ e, find_text_element fr = .error e ↔ fr = FindResult.otherError e) := by
  cases fr <;> simp [find_text_element]

/-- Witness for C8. -/
theorem c8_find_text_element_classifies_witness :
    find_text_element FindResult.noSuchElement = Except.ok none :=
  ((c8_find_text_element_classifies FindResult.noSuchElement).1).mpr rfl

/-- Counterexample to claim C9 as stated: a group with an allowed
category and zero qualifying rows does not always leave its key bound to
the empty sequence — a later group with the same category overwrites the
entry (`sub_dict["submissions"][entity_type] = []` resets it and the
row loop refills it), here binding `"Party"` to a one-element list. -/
theorem c9_cex_zero_row_group_key_nonempty :
    cexSec9 ∈ cexGrid9.sections ∧ cexSec9.entitytype = some "Party" ∧
    "Party" ∈ RELEVANT_ENTITY_TYPES ∧ cexSec9.rows = [] ∧
    _parse_submissions cexPage9 = Except.ok [cexRec9] ∧
    cexRec9.submissions = some [("Party", [wItem])] ∧
    ("Party", ([] : List SubItem)) ∉ [("Party", [wItem])] :=
  ⟨by decide, rfl, by decide, rfl, rfl, rfl, by decide⟩

/-- Claim C9 (amended): for every sub-item group with an allowed
category and zero qualifying rows, the parsed record's mapping contains
that category key; and when no later group of the same record carries
the same category, the key is bound to the empty sequence (groups with
equal categories overwrite: the mapping binds each category to its last
group's rows). -/
theorem c9_zero_row_group_key_present (page : Page) (recs : List Record)
    (h : _parse_submissions page = .ok recs) (g : SubmissionGrid)
    (hg : g ∈ page.grids) (pre post : List SubmissionSection)
    (sec : SubmissionSection) (hsecs : g.sections = pre ++ sec :: post)
    (et : String) (hety : sec.entitytype = some et)
    (hrel : et ∈ RELEVANT_ENTITY_TYPES) (hrows : sec.rows = [])
    (hpost : ∀ s ∈ post, s.entitytype ≠ some et) :
    ∃ r ∈ recs, parseGrid page.currentUrl g = .ok r ∧
      ∃ m, r.submissions = some m ∧ (et, ([] : List SubItem)) ∈ m := by
  obtain ⟨r, hr, hpg⟩ :=
    mapME_ok_forward (parseGrid page.currentUrl) page.grids recs h g hg
  obtain ⟨m, hm, hfold⟩ := parseGrid_ok_submissions page.currentUrl g r hpg
  rw [hsecs, foldSections_append] at hfold
  cases h1 : foldSections page.currentUrl [] pre with
  | error e =>
    rw [h1] at hfold
    exact Except.noConfusion hfold
  | ok m1 =>
    rw [h1] at hfold
    have hfold' : foldSections page.currentUrl m1 (sec :: post) = .ok m :=
      hfold
    have hsecstep : parseSection page.currentUrl m1 sec =
        .ok (dictSet m1 et []) := by
      simp [parseSection, hety, hrel, hrows, mapME]
    rw [foldSections_cons, hsecstep] at hfold'
    have hfold2 : foldSections page.currentUrl (dictSet m1 et []) post =
        .ok m := hfold'
    have hmem : (et, ([] : List SubItem)) ∈ dictSet m1 et [] :=
      dictSet_self_mem m1 et []
    have hfin : (et, ([] : List SubItem)) ∈ m :=
      foldSections_preserve page.currentUrl post (dictSet m1 et []) m hfold2
        (et, []) hmem (fun s hs => hpost s hs)
    exact ⟨r, hr, hpg, m, hm, hfin⟩

/-- Witness for the amended C9: an `"NGO"` group with zero rows yields
the key bound to the empty sequence. -/
theorem c9_zero_row_group_key_present_witness :
    ∃ r ∈ [w9Rec], parseGrid w9Page.currentUrl w9Grid = .ok r ∧
      ∃ m, r.submissions = some m ∧ ("NGO", ([] : List SubItem)) ∈ m :=
  c9_zero_row_group_key_present w9Page [w9Rec] rfl w9Grid (by decide)
    [] [] w9Sec rfl "NGO" rfl (by decide) rfl (by simp)

/-- Claim C10: every record the parser emits carries the `submissions`
key (so `write_to_csv`'s membership guard never skips a parsed record),
and such a record contributes zero flat rows only because every one of
its category sequences is empty, never because the key is missing. -/
theorem c10_submissions_key_always_present (page : Page)
    (recs : List Record) (h : _parse_submissions page = .ok recs)
    (r : Record) (hr : r ∈ recs) :
    ∃ m, r.submissions = some m ∧
      ∀ ds ca, recordRows ds ca r = [] → ∀ kv ∈ m, kv.2 = [] := by
  obtain ⟨g, hg, hpg⟩ :=
    mapME_ok_mem (parseGrid page.currentUrl) page.grids recs h r hr
  obtain ⟨m, hm, -⟩ := parseGrid_ok_submissions page.currentUrl g r hpg
  refine ⟨m, hm, ?_⟩
  intro ds ca hnil kv hkv
  simp only [recordRows, hm] at hnil
  rw [concatAll_eq_nil] at hnil
  have h2 := hnil (kv.2.map (fun it => rowOf ds ca r kv.1 it))
    (List.mem_map_of_mem _ hkv)
  simpa using h2

/-- Witness for C10. -/
theorem c10_submissions_key_always_present_witness :
    ∃ m, wRec.submissions = some m ∧
      ∀ ds ca, recordRows ds ca wRec = [] → ∀ kv ∈ m, kv.2 = [] :=
  c10_submissions_key_always_present wPage [wRec] rfl wRec (by decide)

end Unfccc
